import Mathlib

/-!
Verification development for the authentication core of the
`goit-hw-web-14-docs-tests` contacts API.

The embedding translates `src/services/auth.py`, `src/services/role.py`,
`src/repository/users.py`, `src/routes/auth_router.py` and
`src/routes/email_router.py` into pure Lean functions.  JWTs are modelled
as structured values carrying their payload together with the signing key
and algorithm; `jwt.decode` succeeds exactly when the key and algorithm
match and the token is unexpired, mirroring signature verification.
Python dictionary access that can raise `KeyError`, and attribute access
on `None` that raises `AttributeError`, are modelled by an explicit
`Outcome.exn` constructor, distinct from `HTTPException` responses.
-/

namespace HwAuth

/-- A JSON claim value that the code reads as a string: `none` models the
JSON value `null` (Python `None`), `some s` a string. -/
abbrev PyStr := Option String

/-- A decoded JWT claim set restricted to the claims the code reads.
An outer `none` on `sub`/`scope` models the key being absent from the
payload dict (so `payload["sub"]` raises `KeyError`); `some v` models the
key being present with value `v`. `iat` and `exp` are POSIX seconds. -/
structure Payload where
  sub : Option PyStr
  iat : Nat
  exp : Nat
  scope : Option PyStr
deriving DecidableEq, Repr

/-- An encoded JWT: `jwt.encode(payload, key, algorithm)`.  The encoding is
deterministic and injective in (payload, key, alg), so equality of encoded
token strings coincides with equality of these records. -/
structure Token where
  payload : Payload
  key : String
  alg : String
deriving DecidableEq, Repr

/-- The process-wide signing configuration (`settings.SECRET_KEY`,
`settings.ALGORITHM` in `src/conf/config.py`, stored on class `Auth`). -/
structure AuthConf where
  SECRET_KEY : String
  ALGORITHM : String
deriving DecidableEq, Repr

/-- `jose.jwt.decode(token, key, algorithms=[alg])` at clock time `now`:
returns the payload when the signature verifies (same key, same algorithm)
and the token is unexpired, otherwise raises `JWTError` (modelled as
`none`).  python-jose raises `ExpiredSignatureError` (a `JWTError`) when
`exp < now`. -/
def jwt_decode (t : Token) (key alg : String) (now : Nat) : Option Payload :=
  if t.key = key ∧ t.alg = alg ∧ now ≤ t.payload.exp then some t.payload else none

/-- The caller-supplied `data` dict passed to the token creators; the code
only ever reads its `"sub"` entry downstream, so only that claim is kept
(extra entries such as login's `"test"` claim are irrelevant to every
consumer). -/
structure ClaimsData where
  sub : Option PyStr
deriving DecidableEq, Repr

/-- Python truthiness of the `expires_delta : Optional[float]` argument:
`if expires_delta:` is false for `None` and for `0`. -/
def deltaTruthy : Option Nat → Bool
  | some n => n ≠ 0
  | none => false

/-- `Auth.create_access_token`: copies `data`, sets `iat = now`,
`exp = now + expires_delta` (seconds) when truthy else `now + 15` minutes,
`scope = "access_token"`, and signs with the service key/algorithm. -/
def create_access_token (c : AuthConf) (data : ClaimsData)
    (expires_delta : Option Nat) (now : Nat) : Token :=
  let expire :=
    if deltaTruthy expires_delta then now + expires_delta.getD 0
    else now + 15 * 60
  { payload := { sub := data.sub, iat := now, exp := expire,
                 scope := some (some "access_token") },
    key := c.SECRET_KEY, alg := c.ALGORITHM }

/-- `Auth.create_refresh_token`: as `create_access_token` but with
`scope = "refresh_token"` and a 7-day default lifetime. -/
def create_refresh_token (c : AuthConf) (data : ClaimsData)
    (expires_delta : Option Nat) (now : Nat) : Token :=
  let expire :=
    if deltaTruthy expires_delta then now + expires_delta.getD 0
    else now + 7 * 24 * 60 * 60
  { payload := { sub := data.sub, iat := now, exp := expire,
                 scope := some (some "refresh_token") },
    key := c.SECRET_KEY, alg := c.ALGORITHM }

/-- `Auth.create_email_token`: 7-day lifetime and, unlike the other two
creators, no `"scope"` key is added to the payload. -/
def create_email_token (c : AuthConf) (data : ClaimsData) (now : Nat) : Token :=
  { payload := { sub := data.sub, iat := now, exp := now + 7 * 24 * 60 * 60,
                 scope := none },
    key := c.SECRET_KEY, alg := c.ALGORITHM }

/-- Result of running a Python-side operation: a normal return value, an
`HTTPException(status_code, detail)` surfaced as a response, or an uncaught
Python exception (by class name) that escapes every handler. -/
inductive Outcome (α : Type) where
  | ok : α → Outcome α
  | http : Nat → String → Outcome α
  | exn : String → Outcome α
deriving DecidableEq, Repr

/-- `Auth.decode_refresh_token`: decode, then require
`payload["scope"] == "refresh_token"` and return `payload["sub"]`.
A missing `"scope"` or `"sub"` key raises `KeyError`, which is not a
`JWTError` and so escapes the `except JWTError` handler; a wrong scope
raises `HTTPException(401, "Invalid scope for token")` (an `HTTPException`
is not a `JWTError` either, so it propagates); a `JWTError` from decoding
becomes `HTTPException(401, "Could not validate credentials")`. -/
def decode_refresh_token (c : AuthConf) (t : Token) (now : Nat) :
    Outcome PyStr :=
  match jwt_decode t c.SECRET_KEY c.ALGORITHM now with
  | none => .http 401 "Could not validate credentials"
  | some p =>
    match p.scope with
    | none => .exn "KeyError"
    | some v =>
      if v = some "refresh_token" then
        match p.sub with
        | none => .exn "KeyError"
        | some e => .ok e
      else .http 401 "Invalid scope for token"

/-- `Auth.get_email_from_refresh_token`: same control flow and messages as
`decode_refresh_token`. -/
def get_email_from_refresh_token (c : AuthConf) (t : Token) (now : Nat) :
    Outcome PyStr :=
  match jwt_decode t c.SECRET_KEY c.ALGORITHM now with
  | none => .http 401 "Could not validate credentials"
  | some p =>
    match p.scope with
    | none => .exn "KeyError"
    | some v =>
      if v = some "refresh_token" then
        match p.sub with
        | none => .exn "KeyError"
        | some e => .ok e
      else .http 401 "Invalid scope for token"

/-- `Auth.get_email_from_token` (email-verification decoder): decode and
return `payload["sub"]`.  No scope check at all.  A `JWTError` becomes
`HTTPException(422, "Invalid token for email verification")`; a missing
`"sub"` key raises an uncaught `KeyError`. -/
def get_email_from_token (c : AuthConf) (t : Token) (now : Nat) :
    Outcome PyStr :=
  match jwt_decode t c.SECRET_KEY c.ALGORITHM now with
  | none => .http 422 "Invalid token for email verification"
  | some p =>
    match p.sub with
    | none => .exn "KeyError"
    | some e => .ok e

/-- Modelled from the spec: the `Role` enumeration of `src/entity/models.py`
is not among the provided sources; the spec fixes it as the set
{admin, moderator, user}. -/
inductive Role where
  | admin
  | moderator
  | user
deriving DecidableEq, Repr

/-- A bcrypt digest as produced by `Auth.get_password_hash`
(`CryptContext(schemes=["bcrypt"]).hash`).  bcrypt is an external library;
it is modelled abstractly as a record of the random salt and the password
it was computed from, a type distinct from `String` so a digest is never
itself a plaintext password.  `verify` succeeds exactly when the candidate
equals the hashed password. -/
structure BcryptHash where
  salt : String
  hashedOf : String
deriving DecidableEq, Repr

/-- `Auth.get_password_hash`: bcrypt-hash a plaintext password with a fresh
random salt (the salt is passed explicitly here since the model is pure). -/
def get_password_hash (password : String) (salt : String) : BcryptHash :=
  { salt := salt, hashedOf := password }

/-- `Auth.verify_password`: bcrypt verification of a plaintext against a
stored digest. -/
def verify_password (plain : String) (hashed : BcryptHash) : Bool :=
  plain = hashed.hashedOf

/-- Modelled from the spec: the `User` ORM model of `src/entity/models.py`
is not among the provided sources.  Per spec section 3 a user has a unique
email, a username, a bcrypt-hashed password, a boolean `confirmed` flag
(false at creation), an optional stored refresh token (absent at creation;
at most one outstanding per user), an optional avatar URL and a role.  The
stored refresh token is the encoded JWT string, modelled as a `Token`. -/
structure User where
  username : String
  email : String
  password : BcryptHash
  confirmed : Bool
  refresh_token : Option Token
  avatar : Option String
  role : Role
deriving DecidableEq, Repr

/-- The user table behind the AsyncSession. -/
abbrev Db := List User

/-- The store together with a commit counter, so that theorems can speak
about whether a route performed any write (`db.commit()`) at all. -/
structure StoreState where
  db : Db
  commits : Nat
deriving DecidableEq, Repr

/-- `repository.users.get_user_by_email`:
`select(User).filter(User.email == email)` then `scalar_one_or_none()`.
The argument is a `PyStr` because the refresh route can pass `None` (a
`null` subject claim), which matches no row. -/
def get_user_by_email (email : PyStr) : Db → Option User
  | [] => none
  | u :: rest =>
    if some u.email = email then some u else get_user_by_email email rest

/-- Apply `f` to every row whose email is `email` (SQLAlchemy identity-map
mutation of the fetched `User` object, made visible by `commit`). -/
def db_update (email : String) (f : User → User) (db : Db) : Db :=
  db.map (fun u => if u.email = email then f u else u)

/-- `repository.users.update_token`: `user.refresh_token = token` then
`db.commit()`. -/
def update_token (u : User) (token : Option Token) (s : StoreState) :
    StoreState :=
  { db := db_update u.email (fun v => { v with refresh_token := token }) s.db,
    commits := s.commits + 1 }

/-- `repository.users.confirmed_email`: look the user up by email; raise
`ValueError` when absent; else set `confirmed = True` and commit. -/
def repo_confirmed_email (email : PyStr) (s : StoreState) :
    Outcome Unit × StoreState :=
  match get_user_by_email email s.db with
  | none => (.exn "ValueError", s)
  | some u =>
    (.ok (),
     { db := db_update u.email (fun v => { v with confirmed := true }) s.db,
       commits := s.commits + 1 })

/-- The signup request body (`UserModel` schema: username, email, plaintext
password). -/
structure UserModel where
  username : String
  email : String
  password : String
deriving DecidableEq, Repr

/-- `repository.users.create_user`: build a `User` from the (already
hashed) body plus the Gravatar result and persist it with one commit.
`confirmed`, `refresh_token` and `role` take the model defaults, which are
modelled from the spec (created unconfirmed, no refresh token, ordinary
user role) since `src/entity/models.py` is not among the sources.  The
`password` field of the body has been overwritten with the bcrypt hash by
the signup route before this call. -/
def create_user (username email : String) (password : BcryptHash)
    (avatar : Option String) (s : StoreState) : User × StoreState :=
  let new_user : User :=
    { username := username, email := email, password := password,
      confirmed := false, refresh_token := none, avatar := avatar,
      role := Role.user }
  (new_user, { db := s.db ++ [new_user], commits := s.commits + 1 })

/-- The `/auth/signup` route: reject with 409 when a user with the body's
email already exists; otherwise hash the password, persist the new user,
schedule the verification mail in the background, and return the created
user (HTTP 201 per the route decorator).  `salt` is the random bcrypt salt
drawn for this request and `avatar` the Gravatar lookup result. -/
def signup (body : UserModel) (salt : String) (avatar : Option String)
    (s : StoreState) : Outcome User × StoreState :=
  match get_user_by_email (some body.email) s.db with
  | some _ => (.http 409 "Account already exists", s)
  | none =>
    let hashed := get_password_hash body.password salt
    let (new_user, s') := create_user body.username body.email hashed avatar s
    (.ok new_user, s')

/-- The token triple returned by login and refresh (`TokenModel`). -/
structure TokenPair where
  access_token : Token
  refresh_token : Token
  token_type : String
deriving DecidableEq, Repr

/-- The `/auth/login` route: look the user up by the form's username
(an email); 401 "Invalid email" when absent; 401 "Email not confirmed"
when unconfirmed; 401 "Invalid password" when bcrypt verification fails;
otherwise issue a fresh access and refresh token pair, store the refresh
token, and return the pair with token type "bearer". -/
def login (c : AuthConf) (username password : String) (s : StoreState)
    (now : Nat) : Outcome TokenPair × StoreState :=
  match get_user_by_email (some username) s.db with
  | none => (.http 401 "Invalid email", s)
  | some u =>
    if ¬ u.confirmed then (.http 401 "Email not confirmed", s)
    else if ¬ verify_password password u.password then
      (.http 401 "Invalid password", s)
    else
      let access := create_access_token c { sub := some (some u.email) } none now
      let refresh := create_refresh_token c { sub := some (some u.email) } none now
      (.ok { access_token := access, refresh_token := refresh,
             token_type := "bearer" },
       update_token u (some refresh) s)

/-- `Auth.get_current_user`: decode the bearer token; any `JWTError`, a
scope other than `"access_token"`, a `null` subject, or an unknown subject
all raise the one `credentials_exception`
(`HTTPException(401, "Could not validate credentials")`).  A payload with
no `"scope"` key raises `KeyError` at `payload['scope']`, which is not a
`JWTError` and escapes the handler; likewise a missing `"sub"` key. -/
def get_current_user (c : AuthConf) (t : Token) (db : Db) (now : Nat) :
    Outcome User :=
  match jwt_decode t c.SECRET_KEY c.ALGORITHM now with
  | none => .http 401 "Could not validate credentials"
  | some p =>
    match p.scope with
    | none => .exn "KeyError"
    | some v =>
      if v = some "access_token" then
        match p.sub with
        | none => .exn "KeyError"
        | some e =>
          match e with
          | none => .http 401 "Could not validate credentials"
          | some _ =>
            match get_user_by_email e db with
            | none => .http 401 "Could not validate credentials"
            | some u => .ok u
      else .http 401 "Could not validate credentials"

/-- The `/auth/refresh_token` route: decode the bearer credential with
`get_email_from_refresh_token`; look the user up by the resulting email
(when no user matches, `user.refresh_token` is attribute access on `None`
and raises an uncaught `AttributeError`); when the presented token differs
from the stored one, clear the stored token and fail 401; otherwise issue
a fresh pair and store the new refresh token. -/
def refresh_route (c : AuthConf) (t : Token) (s : StoreState) (now : Nat) :
    Outcome TokenPair × StoreState :=
  match get_email_from_refresh_token c t now with
  | .http a b => (.http a b, s)
  | .exn e => (.exn e, s)
  | .ok email =>
    match get_user_by_email email s.db with
    | none => (.exn "AttributeError", s)
    | some u =>
      if u.refresh_token ≠ some t then
        (.http 401 "Invalid refresh token", update_token u none s)
      else
        let access := create_access_token c { sub := some email } none now
        let refresh := create_refresh_token c { sub := some email } none now
        (.ok { access_token := access, refresh_token := refresh,
               token_type := "bearer" },
         update_token u (some refresh) s)

/-- The `/email/confirmed_email/{token}` route: decode the email token
(422 on `JWTError`); look the user up; 400 "Verification error" when
absent; idempotent success message when already confirmed (no store
write); else delegate to `repository.users.confirmed_email`, which flips
the flag and commits, and return "Email confirmed". -/
def confirmed_email_route (c : AuthConf) (t : Token) (s : StoreState)
    (now : Nat) : Outcome String × StoreState :=
  match get_email_from_token c t now with
  | .http a b => (.http a b, s)
  | .exn e => (.exn e, s)
  | .ok email =>
    match get_user_by_email email s.db with
    | none => (.http 400 "Verification error", s)
    | some u =>
      if u.confirmed then (.ok "Your email is already confirmed", s)
      else
        match repo_confirmed_email email s with
        | (.ok _, s') => (.ok "Email confirmed", s')
        | (.http a b, s') => (.http a b, s')
        | (.exn e, s') => (.exn e, s')

/-- `RoleAccess.__call__` with the resolved user: raise
`HTTPException(403, "FORBIDDEN")` when `user.role not in
self.allowed_roles`, otherwise return `None` without touching any
state. -/
def role_access_call (allowed_roles : List Role) (u : User) : Outcome Unit :=
  if u.role ∉ allowed_roles then .http 403 "FORBIDDEN" else .ok ()

/-- A role-gated request pipeline as wired in `contact_router.py`:
`Depends(auth_service.get_current_user)` resolves the user, then the
`RoleAccess` dependency checks the role. -/
def role_gated_request (c : AuthConf) (allowed_roles : List Role)
    (t : Token) (db : Db) (now : Nat) : Outcome Unit :=
  match get_current_user c t db now with
  | .ok u => role_access_call allowed_roles u
  | .http a b => .http a b
  | .exn e => .exn e

/-! ## Concrete fixtures -/

/-- A concrete signing configuration. -/
def conf0 : AuthConf := { SECRET_KEY := "secret-key", ALGORITHM := "HS256" }

/-- A concrete subject email. -/
def email0 : String := "alice@example.com"

/-- A concrete stored bcrypt digest. -/
def hash0 : BcryptHash := get_password_hash "pw1234" "salt0"

/-- A concrete confirmed user with no outstanding refresh token. -/
def user0 : User :=
  { username := "alice", email := email0, password := hash0,
    confirmed := true, refresh_token := none, avatar := none,
    role := Role.user }

/-- The user record as freshly created by signing `alice` up with
password `pw1234` and salt `salt0` (unconfirmed, no refresh token). -/
def user0AtSignup : User :=
  { username := "alice", email := email0, password := hash0,
    confirmed := false, refresh_token := none, avatar := none,
    role := Role.user }

/-- A refresh token for `alice` issued at time 0. -/
def tokPresented : Token :=
  create_refresh_token conf0 { sub := some (some email0) } none 0

/-- A later refresh token for `alice` issued at time 5, playing the role
of the currently stored (rotated) token. -/
def tokStored : Token :=
  create_refresh_token conf0 { sub := some (some email0) } none 5

/-- `alice` after a rotation: her stored refresh token is `tokStored`. -/
def userRot : User := { user0 with refresh_token := some tokStored }

/-- A refresh-scoped token signed with a key other than the service's:
its signature does not verify under `conf0`. -/
def tok_badkey : Token :=
  { payload := { sub := some (some email0), iat := 0, exp := 1000,
                 scope := some (some "refresh_token") },
    key := "other-key", alg := "HS256" }

/-! ## Helper lemmas -/

/-- The per-row update applied by `db_update` never changes a row's email,
provided the row transformer `f` itself preserves it. -/
theorem db_update_row_email (e : String) (f : User → User)
    (hf : ∀ v, (f v).email = v.email) (u : User) :
    (if u.email = e then f u else u).email = u.email := by
  by_cases h : u.email = e <;> simp [h, hf]

/-- Looking a user up after `db_update` returns the updated row: the
lookup commutes with the row transformer as long as emails are
preserved. -/
theorem get_user_by_email_db_update (email : PyStr) (e : String)
    (f : User → User) (hf : ∀ v, (f v).email = v.email) (db : Db) :
    get_user_by_email email (db_update e f db)
      = (get_user_by_email email db).map
          (fun u => if u.email = e then f u else u) := by
  induction db with
  | nil => rfl
  | cons u rest ih =>
    have hmail : (if u.email = e then f u else u).email = u.email :=
      db_update_row_email e f hf u
    simp only [db_update, List.map_cons, get_user_by_email, hmail] at *
    by_cases h : some u.email = email
    · simp [h]
    · simp [h, ih]

/-- Lookup passes over a prefix containing no matching row. -/
theorem get_user_by_email_append (email : PyStr) (db1 db2 : Db)
    (h : get_user_by_email email db1 = none) :
    get_user_by_email email (db1 ++ db2) = get_user_by_email email db2 := by
  induction db1 with
  | nil => rfl
  | cons u rest ih =>
    simp only [get_user_by_email, List.cons_append] at *
    by_cases hh : some u.email = email
    · simp [hh] at h
    · simp only [hh, if_false, if_neg hh] at h ⊢
      exact ih h

/-! ## Claims -/

/-- C1 counterexample: a validly signed, unexpired token of scope
`access_token` presented to the email-verification decoder
`get_email_from_token` is accepted (its subject is returned), not
rejected — the decoder performs no scope check at all. -/
theorem C1_counterexample :
    (create_access_token conf0 { sub := some (some email0) } none 0).payload.scope
        = some (some "access_token")
    ∧ get_email_from_token conf0
        (create_access_token conf0 { sub := some (some email0) } none 0) 60
        = Outcome.ok (some email0) := by
  exact ⟨rfl, rfl⟩

/-- C1 (amended): for every validly signed, unexpired token carrying a
scope claim, `get_current_user` rejects any scope other than
`access_token` with 401, and `decode_refresh_token` and
`get_email_from_refresh_token` reject any scope other than
`refresh_token` with 401; the email-verification decoder
`get_email_from_token`, by contrast, enforces no scope (see the
counterexample). -/
theorem C1_scope_enforcement (c : AuthConf) (t : Token) (db : Db)
    (now : Nat) (v : PyStr)
    (hk : t.key = c.SECRET_KEY) (ha : t.alg = c.ALGORITHM)
    (he : now ≤ t.payload.exp) (hs : t.payload.scope = some v) :
    (v ≠ some "access_token" →
      get_current_user c t db now
        = Outcome.http 401 "Could not validate credentials")
    ∧ (v ≠ some "refresh_token" →
        decode_refresh_token c t now
            = Outcome.http 401 "Invalid scope for token"
        ∧ get_email_from_refresh_token c t now
            = Outcome.http 401 "Invalid scope for token") := by
  have hdec : jwt_decode t c.SECRET_KEY c.ALGORITHM now = some t.payload := by
    simp [jwt_decode, hk, ha, he]
  constructor
  · intro hv
    simp [get_current_user, hdec, hs, hv]
  · intro hv
    constructor <;>
      simp [decode_refresh_token, get_email_from_refresh_token, hdec, hs, hv]

/-- C1 witness: a refresh token fed to the access verifier and an access
token fed to the refresh decoder are both rejected. -/
theorem C1_scope_enforcement_witness :
    get_current_user conf0
        (create_refresh_token conf0 { sub := some (some email0) } none 0) [] 60
      = Outcome.http 401 "Could not validate credentials"
    ∧ decode_refresh_token conf0
        (create_access_token conf0 { sub := some (some email0) } none 0) 60
      = Outcome.http 401 "Invalid scope for token" := by
  constructor
  · exact (C1_scope_enforcement conf0 _ [] 60 (some "refresh_token")
      rfl rfl (by decide) rfl).1 (by decide)
  · exact ((C1_scope_enforcement conf0 _ [] 60 (some "access_token")
      rfl rfl (by decide) rfl).2 (by decide)).1

/-- C3 counterexample: two inputs that fail the same operation
(`get_email_from_refresh_token`) for different reasons receive different
response texts: a tampered signature yields "Could not validate
credentials" while a valid-but-wrong-scope token yields "Invalid scope
for token". -/
theorem C3_counterexample :
    get_email_from_refresh_token conf0 tok_badkey 60
        = Outcome.http 401 "Could not validate credentials"
    ∧ get_email_from_refresh_token conf0
        (create_access_token conf0 { sub := some (some email0) } none 0) 60
        = Outcome.http 401 "Invalid scope for token"
    ∧ ("Could not validate credentials" : String)
        ≠ "Invalid scope for token" := by
  exact ⟨rfl, rfl, by decide⟩

/-- C3 (amended): within each operation all decode failures (tampering or
expiry, i.e. every `JWTError`) produce one identical response; and
`get_current_user` uses a single message for every failure cause
whatsoever.  But in `decode_refresh_token` and
`get_email_from_refresh_token` a wrong-scope failure produces the
distinct text "Invalid scope for token" (see the counterexample), so the
cause is distinguishable there. -/
theorem C3_messages (c : AuthConf) (t1 t2 : Token) (now1 now2 : Nat)
    (h1 : jwt_decode t1 c.SECRET_KEY c.ALGORITHM now1 = none)
    (h2 : jwt_decode t2 c.SECRET_KEY c.ALGORITHM now2 = none) :
    get_email_from_refresh_token c t1 now1
        = get_email_from_refresh_token c t2 now2
    ∧ decode_refresh_token c t1 now1 = decode_refresh_token c t2 now2
    ∧ get_email_from_token c t1 now1 = get_email_from_token c t2 now2
    ∧ (∀ (t : Token) (db : Db) (now st : Nat) (d : String),
        get_current_user c t db now = Outcome.http st d →
        st = 401 ∧ d = "Could not validate credentials") := by
  refine ⟨?_, ?_, ?_, ?_⟩
  · simp [get_email_from_refresh_token, h1, h2]
  · simp [decode_refresh_token, h1, h2]
  · simp [get_email_from_token, h1, h2]
  · intro t db now st d h
    unfold get_current_user at h
    repeat' split at h
    all_goals cases h
    all_goals exact ⟨rfl, rfl⟩

/-- C3 witness: a tampered token and an expired token receive the same
response from the refresh decoder. -/
theorem C3_messages_witness :
    get_email_from_refresh_token conf0 tok_badkey 60
      = get_email_from_refresh_token conf0
          (create_refresh_token conf0 { sub := some (some email0) } none 0)
          (10 ^ 9) := by
  exact (C3_messages conf0 tok_badkey _ 60 (10 ^ 9) (by decide) (by decide)).1

/-- C9: a validly signed, unexpired token whose payload has no `scope`
key (such as one produced by `create_email_token`) makes
`get_current_user` and `get_email_from_refresh_token` raise an uncaught
`KeyError` at `payload['scope']` instead of answering 401: `KeyError` is
not a `JWTError`, so it escapes the `except` handler. -/
theorem C9_missing_scope (c : AuthConf) (t : Token) (db : Db) (now : Nat)
    (hk : t.key = c.SECRET_KEY) (ha : t.alg = c.ALGORITHM)
    (he : now ≤ t.payload.exp) (hs : t.payload.scope = none) :
    get_current_user c t db now = Outcome.exn "KeyError"
    ∧ get_email_from_refresh_token c t now = Outcome.exn "KeyError"
    ∧ ∀ (st : Nat) (d : String),
        get_current_user c t db now ≠ Outcome.http st d := by
  have hdec : jwt_decode t c.SECRET_KEY c.ALGORITHM now = some t.payload := by
    simp [jwt_decode, hk, ha, he]
  refine ⟨?_, ?_, ?_⟩
  · simp [get_current_user, hdec, hs]
  · simp [get_email_from_refresh_token, hdec, hs]
  · intro st d
    simp [get_current_user, hdec, hs]

/-- C9 witness: an email-verification token (which carries no scope
claim) crashes both consumers with `KeyError`. -/
theorem C9_missing_scope_witness :
    get_current_user conf0
        (create_email_token conf0 { sub := some (some email0) } 0) [user0] 60
      = Outcome.exn "KeyError"
    ∧ get_email_from_refresh_token conf0
        (create_email_token conf0 { sub := some (some email0) } 0) 60
      = Outcome.exn "KeyError" := by
  have h := C9_missing_scope conf0
    (create_email_token conf0 { sub := some (some email0) } 0) [user0] 60
    rfl rfl (by decide) rfl
  exact ⟨h.1, h.2.1⟩

/-- C10: a validly signed, unexpired refresh-scoped token whose subject
matches no stored user makes the refresh route crash with an uncaught
`AttributeError` (`user.refresh_token` on `None`) instead of returning a
401 response; the store is left untouched. -/
theorem C10_refresh_unknown_user (c : AuthConf) (t : Token)
    (s : StoreState) (now : Nat) (email : PyStr)
    (hd : get_email_from_refresh_token c t now = Outcome.ok email)
    (hu : get_user_by_email email s.db = none) :
    refresh_route c t s now = (Outcome.exn "AttributeError", s) := by
  simp [refresh_route, hd, hu]

/-- C10 witness: a fresh refresh token for a subject absent from an empty
store crashes the refresh route. -/
theorem C10_refresh_unknown_user_witness :
    refresh_route conf0
        (create_refresh_token conf0 { sub := some (some email0) } none 0)
        { db := [], commits := 0 } 60
      = (Outcome.exn "AttributeError", { db := [], commits := 0 }) := by
  exact C10_refresh_unknown_user conf0 _ _ 60 (some email0) rfl rfl

/-- C4: round-trip — a token minted by `create_access_token` for a
subject email, verified before its expiry under the same configuration,
resolves (via `get_current_user`) to exactly the user stored under that
email; and a token minted by `create_refresh_token` decodes through
`get_email_from_refresh_token` to the same subject email. -/
theorem C4_roundtrip (c : AuthConf) (email : String) (delta : Option Nat)
    (db : Db) (u : User) (now now' : Nat)
    (hacc : now' ≤ (create_access_token c { sub := some (some email) }
        delta now).payload.exp)
    (href : now' ≤ (create_refresh_token c { sub := some (some email) }
        delta now).payload.exp)
    (hu : get_user_by_email (some email) db = some u) :
    get_current_user c
        (create_access_token c { sub := some (some email) } delta now)
        db now' = Outcome.ok u
    ∧ get_email_from_refresh_token c
        (create_refresh_token c { sub := some (some email) } delta now)
        now' = Outcome.ok (some email) := by
  constructor
  · simp only [create_access_token] at hacc ⊢
    simp [get_current_user, jwt_decode, hacc, hu]
  · simp only [create_refresh_token] at href ⊢
    simp [get_email_from_refresh_token, jwt_decode, href]

/-- C4 witness: concrete round-trip one minute after issuance. -/
theorem C4_roundtrip_witness :
    get_current_user conf0
        (create_access_token conf0 { sub := some (some email0) } none 0)
        [user0] 60 = Outcome.ok user0
    ∧ get_email_from_refresh_token conf0
        (create_refresh_token conf0 { sub := some (some email0) } none 0)
        60 = Outcome.ok (some email0) := by
  exact C4_roundtrip conf0 email0 none [user0] user0 0 60
    (by decide) (by decide) (by simp [get_user_by_email, user0])

/-- C5: login with an existing but unconfirmed account fails 401 "Email
not confirmed" for every supplied password (the password check is never
reached); a missing account fails 401 "Invalid email"; a confirmed
account with a failing password check fails 401 "Invalid password".  The
store is unchanged in all three cases. -/
theorem C5_login (c : AuthConf) (username password : String)
    (s : StoreState) (now : Nat) :
    (get_user_by_email (some username) s.db = none →
      login c username password s now = (Outcome.http 401 "Invalid email", s))
    ∧ (∀ u, get_user_by_email (some username) s.db = some u →
        u.confirmed = false →
        login c username password s now
          = (Outcome.http 401 "Email not confirmed", s))
    ∧ (∀ u, get_user_by_email (some username) s.db = some u →
        u.confirmed = true → verify_password password u.password = false →
        login c username password s now
          = (Outcome.http 401 "Invalid password", s)) := by
  refine ⟨?_, ?_, ?_⟩
  · intro h
    simp [login, h]
  · intro u hu hc
    simp [login, hu, hc]
  · intro u hu hc hv
    simp [login, hu, hc, hv]

/-- C5 witness: an unconfirmed user is refused even with the correct
password, a missing user yields "Invalid email", and a wrong password on
a confirmed user yields "Invalid password". -/
theorem C5_login_witness :
    login conf0 email0 "pw1234"
        { db := [{ user0 with confirmed := false }], commits := 0 } 0
      = (Outcome.http 401 "Email not confirmed",
         { db := [{ user0 with confirmed := false }], commits := 0 })
    ∧ login conf0 email0 "pw1234" { db := [], commits := 0 } 0
      = (Outcome.http 401 "Invalid email", { db := [], commits := 0 })
    ∧ login conf0 email0 "wrong-pw" { db := [user0], commits := 0 } 0
      = (Outcome.http 401 "Invalid password",
         { db := [user0], commits := 0 }) := by
  refine ⟨?_, ?_, ?_⟩
  · exact (C5_login conf0 email0 "pw1234"
      { db := [{ user0 with confirmed := false }], commits := 0 } 0).2.1
      { user0 with confirmed := false } (by simp [get_user_by_email, user0]) rfl
  · exact (C5_login conf0 email0 "pw1234" { db := [], commits := 0 } 0).1 rfl
  · exact (C5_login conf0 email0 "wrong-pw"
      { db := [user0], commits := 0 } 0).2.2 user0
      (by simp [get_user_by_email, user0]) rfl (by decide)

/-- C8: once the authentication gate has resolved a user, the role-gated
pipeline returns 403 "FORBIDDEN" exactly when the user's role is not in
the route's allowed-role list, and otherwise completes as a pure no-op
(`None` return, no store interaction); the outcome depends only on the
resolved user, not on which token, store or clock produced it. -/
theorem C8_role_gate (c : AuthConf) (allowed : List Role) (t : Token)
    (db : Db) (now : Nat) (u : User)
    (hauth : get_current_user c t db now = Outcome.ok u) :
    (role_gated_request c allowed t db now = Outcome.http 403 "FORBIDDEN"
      ↔ u.role ∉ allowed)
    ∧ (u.role ∈ allowed →
        role_gated_request c allowed t db now = Outcome.ok ())
    ∧ (∀ (c' : AuthConf) (t' : Token) (db' : Db) (now' : Nat),
        get_current_user c' t' db' now' = Outcome.ok u →
        role_gated_request c' allowed t' db' now'
          = role_gated_request c allowed t db now) := by
  refine ⟨?_, ?_, ?_⟩
  · constructor
    · intro h hmem
      simp [role_gated_request, hauth, role_access_call, hmem] at h
    · intro hmem
      simp [role_gated_request, hauth, role_access_call, hmem]
  · intro hmem
    simp [role_gated_request, hauth, role_access_call, hmem]
  · intro c' t' db' now' h'
    simp [role_gated_request, hauth, h']

/-- C8 witness: an ordinary user is refused by the admin/moderator gate
of the contacts router, while an admin passes. -/
theorem C8_role_gate_witness :
    role_gated_request conf0 [Role.admin, Role.moderator]
        (create_access_token conf0 { sub := some (some email0) } none 0)
        [user0] 60
      = Outcome.http 403 "FORBIDDEN"
    ∧ role_gated_request conf0 [Role.admin, Role.moderator]
        (create_access_token conf0 { sub := some (some email0) } none 0)
        [{ user0 with role := Role.admin }] 60
      = Outcome.ok () := by
  constructor
  · exact (C8_role_gate conf0 [Role.admin, Role.moderator]
      (create_access_token conf0 { sub := some (some email0) } none 0)
      [user0] 60 user0 (by decide)).1.mpr (by decide)
  · exact (C8_role_gate conf0 [Role.admin, Role.moderator]
      (create_access_token conf0 { sub := some (some email0) } none 0)
      [{ user0 with role := Role.admin }] 60 { user0 with role := Role.admin }
      (by decide)).2.1 (by decide)

/-- C2: refresh-token rotation and reuse detection.  Given a validly
decoded refresh token whose subject resolves to a user: when the
presented token differs from the stored one, the route answers 401
"Invalid refresh token" and clears the stored refresh token (one
commit), after which every further refresh presenting any valid refresh
token for that subject fails the same way; when the presented token
equals the stored one, a fresh access+refresh pair is issued and the new
refresh token replaces the stored one. -/
theorem C2_refresh_rotation (c : AuthConf) (t : Token) (s : StoreState)
    (now : Nat) (email : PyStr) (u : User)
    (hd : get_email_from_refresh_token c t now = Outcome.ok email)
    (hu : get_user_by_email email s.db = some u) :
    (u.refresh_token ≠ some t →
      refresh_route c t s now
        = (Outcome.http 401 "Invalid refresh token", update_token u none s)
      ∧ get_user_by_email email (update_token u none s).db
          = some { u with refresh_token := none }
      ∧ (update_token u none s).commits = s.commits + 1
      ∧ ∀ (t' : Token) (now' : Nat),
          get_email_from_refresh_token c t' now' = Outcome.ok email →
          (refresh_route c t' (update_token u none s) now').1
            = Outcome.http 401 "Invalid refresh token")
    ∧ (u.refresh_token = some t →
        refresh_route c t s now
          = (Outcome.ok
              { access_token :=
                  create_access_token c { sub := some email } none now,
                refresh_token :=
                  create_refresh_token c { sub := some email } none now,
                token_type := "bearer" },
             update_token u
               (some (create_refresh_token c { sub := some email } none now))
               s)
        ∧ get_user_by_email email
            (update_token u
              (some (create_refresh_token c { sub := some email } none now))
              s).db
          = some { u with refresh_token := some (create_refresh_token c { sub := some email } none now) }) := by
  have hlookup : ∀ (tok : Option Token),
      get_user_by_email email
          (db_update u.email (fun v => { v with refresh_token := tok }) s.db)
        = some { u with refresh_token := tok } := by
    intro tok
    rw [get_user_by_email_db_update email u.email
      (fun v => { v with refresh_token := tok }) (fun v => rfl) s.db, hu]
    simp
  constructor
  · intro hne
    refine ⟨?_, hlookup none, rfl, ?_⟩
    · simp [refresh_route, hd, hu, hne]
    · intro t' now' hd'
      simp [refresh_route, update_token, hd', hlookup none]
  · intro heq
    refine ⟨?_, hlookup _⟩
    simp [refresh_route, hd, hu, heq]

/-- C2 witness: presenting an older, since-rotated refresh token gets
401 and wipes the stored token. -/
theorem C2_refresh_rotation_witness :
    refresh_route conf0 tokPresented { db := [userRot], commits := 0 } 60
      = (Outcome.http 401 "Invalid refresh token",
         update_token userRot none { db := [userRot], commits := 0 }) := by
  exact ((C2_refresh_rotation conf0 tokPresented
    { db := [userRot], commits := 0 } 60 (some email0) userRot
    (by decide) (by decide)).1 (by decide)).1

/-- C6: signup uniqueness and hashing.  When a user with the body's email
exists, signup answers 409 "Account already exists" and leaves the store
untouched; otherwise it persists exactly one new user whose stored
password is the bcrypt digest of the submitted password (a digest value,
not the plaintext string), unconfirmed and with no refresh token — and a
second signup with the same email against the resulting store fails
409. -/
theorem C6_signup (body : UserModel) (salt : String)
    (avatar : Option String) (s : StoreState) :
    (∀ u, get_user_by_email (some body.email) s.db = some u →
      signup body salt avatar s
        = (Outcome.http 409 "Account already exists", s))
    ∧ (get_user_by_email (some body.email) s.db = none →
        ∃ nu : User,
          signup body salt avatar s
            = (Outcome.ok nu, { db := s.db ++ [nu], commits := s.commits + 1 })
          ∧ nu.email = body.email
          ∧ nu.username = body.username
          ∧ nu.password = get_password_hash body.password salt
          ∧ nu.confirmed = false
          ∧ nu.refresh_token = none
          ∧ ∀ (body2 : UserModel) (salt2 : String) (avatar2 : Option String),
              body2.email = body.email →
              signup body2 salt2 avatar2
                  { db := s.db ++ [nu], commits := s.commits + 1 }
                = (Outcome.http 409 "Account already exists",
                   { db := s.db ++ [nu], commits := s.commits + 1 })) := by
  constructor
  · intro u hu
    simp [signup, hu]
  · intro h
    refine ⟨{ username := body.username, email := body.email,
              password := get_password_hash body.password salt,
              confirmed := false, refresh_token := none, avatar := avatar,
              role := Role.user }, ?_, rfl, rfl, rfl, rfl, rfl, ?_⟩
    · simp [signup, create_user, h]
    · intro body2 salt2 avatar2 he
      have hfound : get_user_by_email (some body2.email) (s.db ++ [({ username := body.username, email := body.email, password := get_password_hash body.password salt, confirmed := false, refresh_token := none, avatar := avatar, role := Role.user } : User)]) = some ({ username := body.username, email := body.email, password := get_password_hash body.password salt, confirmed := false, refresh_token := none, avatar := avatar, role := Role.user } : User) := by
        rw [he, get_user_by_email_append _ _ _ h]
        simp [get_user_by_email]
      simp [signup, hfound]

/-- C6 witness: the store already holds the user created by the first
signup of `alice`, so repeating the signup with the same email hits 409
and leaves the store unchanged. -/
theorem C6_signup_witness :
    signup { username := "alice", email := email0, password := "pw1234" }
        "salt1" none { db := [user0AtSignup], commits := 1 }
      = (Outcome.http 409 "Account already exists",
         { db := [user0AtSignup], commits := 1 }) := by
  exact (C6_signup
    { username := "alice", email := email0, password := "pw1234" }
    "salt1" none { db := [user0AtSignup], commits := 1 }).1
    user0AtSignup (by decide)

/-- C7: email confirmation.  With a decodable email token: an unknown
subject fails 400 "Verification error" with the store untouched; an
already-confirmed subject gets the idempotent success message with no
store write (no commit, store unchanged); an unconfirmed subject gets
"Email confirmed", one commit, and the stored flag flips to true. -/
theorem C7_confirm (c : AuthConf) (t : Token) (s : StoreState) (now : Nat)
    (email : PyStr)
    (hd : get_email_from_token c t now = Outcome.ok email) :
    (get_user_by_email email s.db = none →
      confirmed_email_route c t s now
        = (Outcome.http 400 "Verification error", s))
    ∧ (∀ u, get_user_by_email email s.db = some u → u.confirmed = true →
        confirmed_email_route c t s now
          = (Outcome.ok "Your email is already confirmed", s))
    ∧ (∀ u, get_user_by_email email s.db = some u → u.confirmed = false →
        confirmed_email_route c t s now
          = (Outcome.ok "Email confirmed",
             { db := db_update u.email
                 (fun v => { v with confirmed := true }) s.db,
               commits := s.commits + 1 })
          ∧ get_user_by_email email
              (db_update u.email (fun v => { v with confirmed := true }) s.db)
            = some { u with confirmed := true }) := by
  refine ⟨?_, ?_, ?_⟩
  · intro h
    simp [confirmed_email_route, hd, h]
  · intro u hu hc
    simp [confirmed_email_route, hd, hu, hc]
  · intro u hu hc
    constructor
    · simp [confirmed_email_route, repo_confirmed_email, hd, hu, hc]
    · rw [get_user_by_email_db_update email u.email
        (fun v => { v with confirmed := true }) (fun v => rfl) s.db, hu]
      simp

/-- C7 witness: confirming an already-confirmed user changes nothing,
and confirming an unconfirmed user flips the flag with one commit. -/
theorem C7_confirm_witness :
    confirmed_email_route conf0
        (create_email_token conf0 { sub := some (some email0) } 0)
        { db := [user0], commits := 3 } 60
      = (Outcome.ok "Your email is already confirmed",
         { db := [user0], commits := 3 })
    ∧ (confirmed_email_route conf0
        (create_email_token conf0 { sub := some (some email0) } 0)
        { db := [{ user0 with confirmed := false }], commits := 3 } 60).1
      = Outcome.ok "Email confirmed" := by
  constructor
  · exact (C7_confirm conf0 _ { db := [user0], commits := 3 } 60
      (some email0) (by decide)).2.1 user0 (by decide) rfl
  · exact congrArg Prod.fst
      (((C7_confirm conf0 _
        { db := [{ user0 with confirmed := false }], commits := 3 } 60
        (some email0) (by decide)).2.2
        { user0 with confirmed := false } (by decide) rfl).1)

end HwAuth
